import Mathlib

/-
  Verification of the annotation / coordinate / export pipeline of the
  Bureaucracy-Buster PDF viewer.

  Shallow embedding conventions:
  * JS numbers are modelled as rationals (ℚ); all arithmetic in the claims
    under consideration is exact at the inputs involved.
  * The TS `Annotation` record (src/types.ts) is the structure `Ann` below
    (the original field names are kept; the record name is shortened).
  * `saveFilledPdf` (services/pdfService.ts) returns the list of draw
    operations applied to the parsed document; the serialized bytes are
    abstracted as that list.  Parsing (`PDFDocument.load`) is modelled by an
    `Option (List PageSize)` argument: `none` is a parse failure (the TS
    promise rejects), `some pages` is the parsed document's page list.
  * Fallible TS code (a `throw` inside an `async` function) is `Except`.
-/

/-- JS `String.prototype.trim()`: drop whitespace from both ends.
(Defined structurally on the character list so concrete instances
evaluate.) -/
def jsTrim (s : String) : String :=
  String.mk (((s.data.dropWhile Char.isWhitespace).reverse.dropWhile
    Char.isWhitespace).reverse)

/-- The `Annotation` record of src/types.ts:
`{id: string, page: number (1-based), x, y: number (pixels at scale 1),
text: string, width?: number}`.  `page` is an `Int` so that the JS behaviour
on page numbers `≤ 0` is representable. -/
structure Ann where
  id : String
  page : Int
  x : ℚ
  y : ℚ
  text : String
  width : Option ℚ := none
deriving Repr, DecidableEq

/-- A parsed page as seen by `page.getSize()` in pdf-lib. -/
structure PageSize where
  width : ℚ
  height : ℚ
deriving Repr, DecidableEq

/-- One `page.drawText` call issued by the exporter, with all the
arguments the code passes (services/pdfService.ts lines 54-60). -/
structure DrawOp where
  pageIndex : Nat
  x : ℚ
  y : ℚ
  text : String
  size : ℚ
  font : String
  color : ℚ × ℚ × ℚ
deriving Repr, DecidableEq

/-- JS array indexing `l[i]` with a possibly negative index:
`undefined` (here `none`) outside the bounds. -/
def jsIndex (l : List PageSize) (i : Int) : Option PageSize :=
  if i < 0 then none else l.get? i.toNat

/- ---------------------------------------------------------------------
   CoordinateMapper: the three conversions, each taken from the one place
   in the source that computes it.
--------------------------------------------------------------------- -/

/-- `toScreen(p, scale) = p * scale`: the annotation overlay,
src/App.tsx lines 607-608 (`ann.x * scale`, `ann.y * scale`). -/
def toScreen (p : ℚ × ℚ) (scale : ℚ) : ℚ × ℚ :=
  (p.1 * scale, p.2 * scale)

/-- `toIntrinsic(p, scale) = p / scale`: the creation gesture,
src/App.tsx lines 577-578 (`clickX / scale`, `clickY / scale`). -/
def toIntrinsic (p : ℚ × ℚ) (scale : ℚ) : ℚ × ℚ :=
  (p.1 / scale, p.2 / scale)

/-- `toOutput`: the vertical flip of the exporter,
services/pdfService.ts lines 51-52 (`x`, `height - annotation.y - 12`). -/
def toOutput (p : ℚ × ℚ) (pageHeightIntrinsic : ℚ) : ℚ × ℚ :=
  (p.1, pageHeightIntrinsic - p.2 - 12)

/- ---------------------------------------------------------------------
   DocumentExporter: saveFilledPdf, services/pdfService.ts lines 34-65.
--------------------------------------------------------------------- -/

/-- The draw operation the exporter issues for one annotation landing on
page `pg` (services/pdfService.ts lines 50-60): position
`(annotation.x, height - annotation.y - 12)`, size 12, the embedded
Courier font, fill `rgb(0,0,0)`.  The current zoom scale is not an input. -/
def drawTextOp (a : Ann) (pg : PageSize) : DrawOp :=
  { pageIndex := (a.page - 1).toNat
  , x := a.x
  , y := pg.height - a.y - 12
  , text := a.text
  , size := 12
  , font := "Courier"
  , color := (0, 0, 0) }

/-- One iteration of the exporter's loop (services/pdfService.ts
lines 39-61): `if (annotation.page > pages.length) continue;` then
`pages[annotation.page - 1]` — an index below `0` yields `undefined`,
so the subsequent `.getSize()` throws a TypeError. -/
def drawAnn (pages : List PageSize) (a : Ann) : Except String (List DrawOp) :=
  if (pages.length : Int) < a.page then Except.ok []
  else
    match jsIndex pages (a.page - 1) with
    | none => Except.error "TypeError"
    | some pg => Except.ok [drawTextOp a pg]

/-- The exporter's `for (const annotation of annotations)` loop: draws are
accumulated in order and the first thrown exception aborts the rest. -/
def drawAll (pages : List PageSize) : List Ann → Except String (List DrawOp)
  | [] => Except.ok []
  | a :: rest =>
      match drawAnn pages a with
      | Except.error e => Except.error e
      | Except.ok ops =>
          match drawAll pages rest with
          | Except.error e => Except.error e
          | Except.ok more => Except.ok (ops ++ more)

/-- `saveFilledPdf(originalBuffer, annotations)`, services/pdfService.ts
lines 34-65.  `parsed = none` models `PDFDocument.load` rejecting on
malformed bytes, in which case the function rejects with no output. -/
def saveFilledPdf (parsed : Option (List PageSize)) (anns : List Ann) :
    Except String (List DrawOp) :=
  match parsed with
  | none => Except.error "ParseError"
  | some pages => drawAll pages anns

/- ---------------------------------------------------------------------
   AnnotationStore: the three handlers of src/App.tsx lines 108-118.
--------------------------------------------------------------------- -/

/-- `handleAddAnnotation`: `setAnnotations(prev => [...prev, a])`. -/
def handleAddAnn (a : Ann) (anns : List Ann) : List Ann :=
  anns ++ [a]

/-- `handleUpdateAnnotation`:
`prev.map(a => a.id === id ? { ...a, text } : a)`. -/
def handleUpdateAnn (id text : String) (anns : List Ann) : List Ann :=
  anns.map (fun a => if a.id = id then { a with text := text } else a)

/-- `handleRemoveAnnotation`: `prev.filter(a => a.id !== id)`. -/
def handleRemoveAnn (id : String) (anns : List Ann) : List Ann :=
  anns.filter (fun a => a.id ≠ id)

/- ---------------------------------------------------------------------
   Annotation overlay and creation gesture (PdfPage, src/App.tsx).
--------------------------------------------------------------------- -/

/-- Screen position of an annotation's overlay element, src/App.tsx
lines 607-608: `left = ann.x * scale`, `top = ann.y * scale - 7`. -/
def overlayPos (a : Ann) (scale : ℚ) : ℚ × ℚ :=
  (a.x * scale, a.y * scale - 7)

/-- The inputs `handlePageDoubleClick` reads from the DOM event and the
document (src/App.tsx lines 562-587): whether the wrapper ref is set,
whether the event target sits inside an `input` or a `button`, the current
text selection (`""` when `window.getSelection()` is null), the client
coordinates and the wrapper's bounding rectangle. -/
structure ClickEvent where
  hasWrapper : Bool
  targetInInput : Bool
  targetInButton : Bool
  selectionText : String
  clientX : ℚ
  clientY : ℚ
  rectLeft : ℚ
  rectTop : ℚ
deriving Repr, DecidableEq

/-- `handlePageDoubleClick` (src/App.tsx lines 562-587) acting on the
store: early-returns leave the list alone; otherwise one record
`{id: freshId, page: pageNumber, x: clickX/scale, y: clickY/scale, text: ""}`
is appended via `onAddAnnotation`.  `freshId` stands for the
`Math.random().toString(36).substr(2, 9)` value. -/
def handlePageDoubleClick (freshId : String) (pageNumber : Int) (scale : ℚ)
    (e : ClickEvent) (anns : List Ann) : List Ann :=
  if !e.hasWrapper then anns
  else if e.targetInInput || e.targetInButton then anns
  else if (jsTrim e.selectionText).length > 0 then anns
  else
    let clickX := e.clientX - e.rectLeft
    let clickY := e.clientY - e.rectTop
    let pdfX := clickX / scale
    let pdfY := clickY / scale
    handleAddAnn { id := freshId, page := pageNumber, x := pdfX, y := pdfY
                 , text := "", width := none } anns

/- ---------------------------------------------------------------------
   TextLayerProjector: the text-layer loop of PdfPage,
   src/App.tsx lines 512-539.
--------------------------------------------------------------------- -/

/-- One item of `textContent.items`: the string and the six entries of its
pdf.js transform `[t0, t1, t2, t3, t4, t5]` (2×2 linear part followed by
the translation). -/
structure TextItem where
  str : String
  t0 : ℚ
  t1 : ℚ
  t2 : ℚ
  t3 : ℚ
  t4 : ℚ
  t5 : ℚ
deriving Repr, DecidableEq

/-- The style the loop assigns to each created span (src/App.tsx
lines 530-536). -/
structure SpanStyle where
  left : ℚ
  top : ℚ
  fontSize : ℚ
  content : String
deriving Repr, DecidableEq

/-- `pdfjsLib.Util.applyTransform([x, y], m)`:
`(m0*x + m2*y + m4, m1*x + m3*y + m5)`. -/
def applyTransform (m : ℚ × ℚ × ℚ × ℚ × ℚ × ℚ) (p : ℚ × ℚ) : ℚ × ℚ :=
  (m.1 * p.1 + m.2.2.1 * p.2 + m.2.2.2.2.1,
   m.2.1 * p.1 + m.2.2.2.1 * p.2 + m.2.2.2.2.2)

/-- Integer square root (largest `k` with `k * k ≤ n`), by exhaustive
search so it evaluates by kernel reduction. -/
def isqrt (n : Nat) : Nat :=
  ((List.range (n + 1)).filter (fun k => k * k ≤ n)).foldr max 0

/-- Exact square root on rationals that are squares of rationals
(`Math.sqrt` is exact there as well); used to keep the text-layer font
computation in exact arithmetic at the concrete inputs of interest. -/
def ratSqrt (q : ℚ) : ℚ :=
  (isqrt q.num.toNat : ℚ) / (isqrt q.den : ℚ)

/-- The span constructed for one text item by the text-layer rebuild loop
(src/App.tsx lines 522-536):
`fontHeight = Math.sqrt(tx[2]*tx[2] + tx[3]*tx[3])`,
`fontHeightPx = fontHeight * scale`,
`[x, y] = viewport.transform ? applyTransform([tx[4], tx[5]], vt) : [tx[4], tx[5]]`,
`left = x`, `top = y - fontHeightPx * 0.8`, `fontSize = fontHeightPx`.
The square-root function is a parameter (`sqrtFn`) so the embedding stays
in ℚ; instantiating it with `ratSqrt` reproduces `Math.sqrt` exactly
whenever the argument is a perfect square. -/
def mkSpan (sqrtFn : ℚ → ℚ) (scale : ℚ)
    (vt : Option (ℚ × ℚ × ℚ × ℚ × ℚ × ℚ)) (it : TextItem) : SpanStyle :=
  let fontHeight := sqrtFn (it.t2 * it.t2 + it.t3 * it.t3)
  let fontHeightPx := fontHeight * scale
  let xy := match vt with
    | some m => applyTransform m (it.t4, it.t5)
    | none => (it.t4, it.t5)
  { left := xy.1
  , top := xy.2 - fontHeightPx * (8 / 10)
  , fontSize := fontHeightPx
  , content := it.str }

/-- The per-item filter of the same loop: items whose trimmed string is
empty produce no span (src/App.tsx line 520, `if (!itemStr.trim()) continue`). -/
def buildTextLayer (sqrtFn : ℚ → ℚ) (scale : ℚ)
    (vt : Option (ℚ × ℚ × ℚ × ℚ × ℚ × ℚ)) (items : List TextItem) :
    List SpanStyle :=
  items.filterMap (fun it =>
    if jsTrim it.str = "" then none
    else some (mkSpan sqrtFn scale vt it))

/-- Modelled from the spec (refinement comparison only, not from the
source): the claimed font size `scale * sqrt(a² + b²)` where `a, b` are
the FIRST two entries of the span's 2×2 linear transform. -/
def claimedFontSizePx (sqrtFn : ℚ → ℚ) (scale : ℚ) (it : TextItem) : ℚ :=
  sqrtFn (it.t0 * it.t0 + it.t1 * it.t1) * scale

/- ---------------------------------------------------------------------
   PageRasterizer lifecycle: the renderPage effect of PdfPage,
   src/App.tsx lines 461-560.
--------------------------------------------------------------------- -/

/-- The visible state of one page-view: the scale the canvas element is
sized for, the scale of the bitmap last drawn into it, the scale of the
last installed text layer, the loading flag, and the list of fully
completed visible render passes (in completion order). -/
structure ViewState where
  canvasScale : Option ℚ
  canvasContent : Option ℚ
  textLayerScale : Option ℚ
  loading : Bool
  completions : List ℚ
deriving Repr, DecidableEq

/-- Where, relative to the effect's suspension points, the page-view was
superseded (the effect cleanup set `isCancelled` and cancelled the render
task).  `duringGetPage`: while `pdfDoc.getPage` was pending (caught by the
check at line 471).  `duringRender`: while the render task was pending —
the task is cancelled, its promise rejects with
`RenderingCancelledException`, and the `catch` swallows it.
`afterRenderBeforeCheck`: the render task finished but the flag was set
before the effect resumed (caught by the check at line 505).
`duringGetText`: while `page.getTextContent()` was pending (caught by the
check at line 510). -/
inductive CancelPoint
  | duringGetPage
  | duringRender
  | afterRenderBeforeCheck
  | duringGetText
deriving Repr, DecidableEq

/-- One run of the `renderPage` effect body at scale `s`
(src/App.tsx lines 464-548) with the point at which it was superseded
(`none` = it was never superseded and runs to completion).  Mutations, in
program order: `setLoading(true)` (line 466); canvas sizing for `s`
(lines 481-484); the render task painting the bitmap at `s` (completes
only if the task was not cancelled while pending); the text-layer rebuild,
`setLoading(false)` and the visible completion (lines 512-542).  After a
suspension at which the flag is already set, the body returns without any
further mutation. -/
def runRenderPass (s : ℚ) (cancelAt : Option CancelPoint) (st : ViewState) :
    ViewState :=
  let st1 : ViewState := { st with loading := true }
  match cancelAt with
  | some CancelPoint.duringGetPage => st1
  | some CancelPoint.duringRender =>
      { st1 with canvasScale := some s }
  | some CancelPoint.afterRenderBeforeCheck =>
      { st1 with canvasScale := some s, canvasContent := some s }
  | some CancelPoint.duringGetText =>
      { st1 with canvasScale := some s, canvasContent := some s }
  | none =>
      { st1 with canvasScale := some s
               , canvasContent := some s
               , textLayerScale := some s
               , loading := false
               , completions := st1.completions ++ [s] }

/-- The C4 scenario: a render pass at `s1` is superseded at suspension
point `p` by a pass at `s2`, which runs to completion.  Every mutation the
`s1` pass makes precedes its cancellation point, and after the flag is set
it makes none, so sequencing its truncated run before the `s2` run yields
the same final state as any faithful interleaving. -/
def superseded (s1 s2 : ℚ) (p : CancelPoint) (st : ViewState) : ViewState :=
  runRenderPass s2 none (runRenderPass s1 (some p) st)

/- ---------------------------------------------------------------------
   handleDownload, src/App.tsx lines 120-141.
--------------------------------------------------------------------- -/

/-- The slice of App state `handleDownload` can read or write: the PDF
buffer (`none` when there is no loaded PDF `ArrayBuffer`) and the
annotation list. -/
structure AppState where
  fileBuf : Option (List Nat)
  anns : List Ann
deriving Repr, DecidableEq

/-- `handleDownload` (src/App.tsx lines 120-141): guard on the file data,
copy the buffer (`slice(0)`), call `saveFilledPdf`; on rejection the
`catch` only alerts.  Result: the App state afterwards and the bytes
(draw-op list) delivered to the host, `none` when nothing is delivered.
`parse` stands for `PDFDocument.load` on the copied bytes. -/
def handleDownload (parse : List Nat → Option (List PageSize))
    (st : AppState) : AppState × Option (List DrawOp) :=
  match st.fileBuf with
  | none => (st, none)
  | some buf =>
      match saveFilledPdf (parse buf) st.anns with
      | Except.error _ => (st, none)
      | Except.ok ops => (st, some ops)

/- ---------------------------------------------------------------------
   Helper lemmas (shared).
--------------------------------------------------------------------- -/

/-- A successful run of the exporter's loop on `b :: rest` decomposes into
a successful draw for `b` followed by a successful run on `rest`. -/
theorem drawAll_cons_ok {pages : List PageSize} {b : Ann} {rest : List Ann}
    {out : List DrawOp} (h : drawAll pages (b :: rest) = Except.ok out) :
    ∃ ops rout, drawAnn pages b = Except.ok ops ∧
      drawAll pages rest = Except.ok rout ∧ out = ops ++ rout := by
  unfold drawAll at h
  cases hb : drawAnn pages b with
  | error e => rw [hb] at h; exact absurd h (by simp)
  | ok ops =>
      rw [hb] at h
      cases hr : drawAll pages rest with
      | error e => rw [hr] at h; exact absurd h (by simp)
      | ok rout =>
          rw [hr] at h
          exact ⟨ops, rout, rfl, rfl, by simpa using h.symm⟩

/-- An annotation whose page is inside `[1, pageCount]` is found by the
indexing step and produces exactly its one draw operation. -/
theorem drawAnn_ok_of_inRange {pages : List PageSize} {a : Ann}
    (h1 : 1 ≤ a.page) (h2 : a.page ≤ (pages.length : Int)) :
    ∃ pg, jsIndex pages (a.page - 1) = some pg ∧
      drawAnn pages a = Except.ok [drawTextOp a pg] := by
  have hnonneg : ¬ (a.page - 1 < 0) := by omega
  have hlt : (a.page - 1).toNat < pages.length := by omega
  have hidx : jsIndex pages (a.page - 1) =
      some (pages.get ⟨(a.page - 1).toNat, hlt⟩) := by
    unfold jsIndex
    rw [if_neg hnonneg, List.get?_eq_get hlt]
  refine ⟨pages.get ⟨(a.page - 1).toNat, hlt⟩, hidx, ?_⟩
  unfold drawAnn
  rw [if_neg (by omega : ¬ ((pages.length : Int) < a.page)), hidx]

/-- A string of length zero is the empty string. -/
theorem string_len_zero {s : String} (h : s.length = 0) : s = "" := by
  cases s with
  | mk data =>
      cases data with
      | nil => rfl
      | cons c cs => simp [String.length] at h

/- ---------------------------------------------------------------------
   C2
--------------------------------------------------------------------- -/

/-- Claim C2: for every point `(x, y)` and nonzero scales `s1, s2`, with
`toScreen(p, s) = p * s` (overlay renderer) and `toIntrinsic(p, s) = p / s`
(gesture handler), the round trip
`toScreen(toIntrinsic(toScreen(p, s1), s1), s2)` equals `toScreen(p, s2)`.
Over ℚ the equality is exact, hence within any floating-point tolerance. -/
theorem zoom_invariance (p : ℚ × ℚ) (s1 s2 : ℚ) (h1 : s1 ≠ 0) (h2 : s2 ≠ 0) :
    toScreen (toIntrinsic (toScreen p s1) s1) s2 = toScreen p s2 := by
  unfold toScreen toIntrinsic
  rw [mul_div_cancel_right₀ _ h1, mul_div_cancel_right₀ _ h1]

/-- Witness for C2 at `p = (120, 200)`, `s1 = 2`, `s2 = 3`. -/
theorem zoom_invariance_witness :
    toScreen (toIntrinsic (toScreen ((120 : ℚ), (200 : ℚ)) 2) 2) 3 =
      toScreen (120, 200) 3 :=
  zoom_invariance (120, 200) 2 3 (by norm_num) (by norm_num)

/- ---------------------------------------------------------------------
   C6 (corrected)
--------------------------------------------------------------------- -/

/-- Counterexample to claim C6 as stated: the annotation at intrinsic
`(120, 200)` at scale `2.0` is NOT rendered at screen `(240, 400)` —
the element's `top` is `ann.y * scale - 7` (src/App.tsx line 608), so the
overlay sits at `(240, 393)`. -/
theorem overlay_position_counterexample :
    overlayPos ⟨"a6", 1, 120, 200, "", none⟩ 2 ≠ ((240 : ℚ), (400 : ℚ)) := by
  norm_num [overlayPos]

/-- Claim C6 amended: the annotation's input element is rendered at
`(x * s, y * s - 7)` — the horizontal position is `toScreen`, the vertical
position is `toScreen` shifted up by a fixed 7 logical pixels (so the
input straddles the anchor point); in particular intrinsic `(120, 200)`
at scale `2.0` renders at `(240, 393)`. -/
theorem overlay_position :
    (∀ (a : Ann) (s : ℚ), overlayPos a s =
      ((toScreen (a.x, a.y) s).1, (toScreen (a.x, a.y) s).2 - 7))
    ∧ overlayPos ⟨"a6", 1, 120, 200, "", none⟩ 2 = (240, 393) := by
  constructor
  · intro a s
    simp [overlayPos, toScreen]
  · norm_num [overlayPos]

/- ---------------------------------------------------------------------
   C9
--------------------------------------------------------------------- -/

/-- Claim C9: `update(id, text)` replaces only the `text` field of the
record(s) whose id matches, leaving `id`, `page`, `x`, `y` and `width` of
that record, every other record, and the list's length and order
unchanged; on an absent id it is a no-op. -/
theorem update_text (id t : String) (anns : List Ann) :
    (handleUpdateAnn id t anns).length = anns.length
    ∧ (∀ i : Nat, (handleUpdateAnn id t anns)[i]? =
        anns[i]?.map (fun a => if a.id = id then { a with text := t } else a))
    ∧ (∀ a ∈ anns, a.id = id →
        ({ a with text := t } : Ann) ∈ handleUpdateAnn id t anns ∧
        ({ a with text := t } : Ann).id = a.id ∧
        ({ a with text := t } : Ann).page = a.page ∧
        ({ a with text := t } : Ann).x = a.x ∧
        ({ a with text := t } : Ann).y = a.y ∧
        ({ a with text := t } : Ann).width = a.width)
    ∧ (∀ a ∈ anns, a.id ≠ id → a ∈ handleUpdateAnn id t anns)
    ∧ ((∀ a ∈ anns, a.id ≠ id) → handleUpdateAnn id t anns = anns) := by
  refine ⟨List.length_map _ _, ?_, ?_, ?_, ?_⟩
  · intro i
    exact List.getElem?_map _ anns i
  · intro a ha hid
    refine ⟨?_, rfl, rfl, rfl, rfl, rfl⟩
    exact List.mem_map.mpr ⟨a, ha, by simp [hid]⟩
  · intro a ha hid
    exact List.mem_map.mpr ⟨a, ha, by simp [hid]⟩
  · intro habsent
    have hcongr : ∀ a ∈ anns,
        (if a.id = id then { a with text := t } else a) = a := by
      intro a ha
      rw [if_neg (habsent a ha)]
    unfold handleUpdateAnn
    rw [List.map_congr_left hcongr]
    exact List.map_id' anns

/-- Witness for C9: on a store holding one record with id `"d"`, the
update rewrites that record's text. -/
theorem update_text_witness :
    (⟨"d", 1, 0, 0, "new", none⟩ : Ann) ∈
      handleUpdateAnn "d" "new" [⟨"d", 1, 0, 0, "old", none⟩] :=
  ((update_text "d" "new" [⟨"d", 1, 0, 0, "old", none⟩]).2.2.1
    ⟨"d", 1, 0, 0, "old", none⟩ (by simp) rfl).1

/- ---------------------------------------------------------------------
   C10
--------------------------------------------------------------------- -/

/-- Claim C10 (implicit): the store performs no id deduplication — `add`
appends unconditionally (so the list may hold several records with one
id, e.g. adding the same record twice gives a two-element list), and in
that state `update(id, text)` rewrites the text of EVERY record whose id
matches while `remove(id)` deletes EVERY record whose id matches (and
keeps every record whose id differs). -/
theorem store_no_id_dedup (a : Ann) (id t : String) (anns : List Ann) :
    handleAddAnn a anns = anns ++ [a]
    ∧ handleAddAnn a (handleAddAnn a []) = [a, a]
    ∧ (∀ b ∈ handleUpdateAnn id t anns, b.id = id → b.text = t)
    ∧ (∀ b ∈ anns, b.id = id → ({ b with text := t } : Ann) ∈ handleUpdateAnn id t anns)
    ∧ (∀ b ∈ handleRemoveAnn id anns, b.id ≠ id)
    ∧ (∀ b ∈ anns, b.id ≠ id → b ∈ handleRemoveAnn id anns) := by
  refine ⟨rfl, rfl, ?_, ?_, ?_, ?_⟩
  · intro b hb hid
    rcases List.mem_map.mp hb with ⟨c, hc, hcb⟩
    by_cases h : c.id = id
    · rw [if_pos h] at hcb
      rw [← hcb]
    · rw [if_neg h] at hcb
      rw [← hcb] at hid
      exact absurd hid h
  · intro b hb hid
    exact List.mem_map.mpr ⟨b, hb, by simp [hid]⟩
  · intro b hb
    have := List.of_mem_filter hb
    simpa using this
  · intro b hb hid
    exact List.mem_filter_of_mem hb (by simpa using hid)

/-- Witness for C10: with two records sharing id `"d"`, the update
rewrites the second one as well (not just the first match). -/
theorem store_no_id_dedup_witness :
    (⟨"d", 2, 5, 5, "T", none⟩ : Ann) ∈
      handleUpdateAnn "d" "T" [⟨"d", 1, 0, 0, "p", none⟩, ⟨"d", 2, 5, 5, "q", none⟩] :=
  (store_no_id_dedup ⟨"d", 1, 0, 0, "p", none⟩ "d" "T"
      [⟨"d", 1, 0, 0, "p", none⟩, ⟨"d", 2, 5, 5, "q", none⟩]).2.2.2.1
    ⟨"d", 2, 5, 5, "q", none⟩ (by simp) rfl

/- ---------------------------------------------------------------------
   C1
--------------------------------------------------------------------- -/

/-- Claim C1: whenever export succeeds, every annotation whose page lies
in `[1, pageCount]` is drawn on its page at output coordinates
`(x, pageHeightIntrinsic - y - 12)` (`= toOutput (x, y) pageHeight`), in
the fixed monospace Courier font at size 12 with solid black fill
`rgb(0, 0, 0)`.  No zoom scale enters the computation (`drawTextOp` has
no scale argument). -/
theorem export_draws_intrinsic (pages : List PageSize) (anns : List Ann)
    (out : List DrawOp) (h : saveFilledPdf (some pages) anns = Except.ok out)
    (a : Ann) (ha : a ∈ anns)
    (h1 : 1 ≤ a.page) (h2 : a.page ≤ (pages.length : Int)) :
    ∃ pg, jsIndex pages (a.page - 1) = some pg ∧
      drawTextOp a pg ∈ out ∧
      ((drawTextOp a pg).x, (drawTextOp a pg).y) = toOutput (a.x, a.y) pg.height ∧
      (drawTextOp a pg).pageIndex = (a.page - 1).toNat ∧
      (drawTextOp a pg).text = a.text ∧
      (drawTextOp a pg).size = 12 ∧
      (drawTextOp a pg).font = "Courier" ∧
      (drawTextOp a pg).color = (0, 0, 0) := by
  have hmain : ∀ (l : List Ann) (o : List DrawOp),
      drawAll pages l = Except.ok o → a ∈ l →
      ∃ pg, jsIndex pages (a.page - 1) = some pg ∧ drawTextOp a pg ∈ o := by
    intro l
    induction l with
    | nil => intro o _ hmem; exact absurd hmem (by simp)
    | cons b rest ih =>
        intro o hok hmem
        rcases drawAll_cons_ok hok with ⟨ops, rout, hb, hrest, hsplit⟩
        rcases List.mem_cons.mp hmem with hab | hmem'
        · subst hab
          rcases drawAnn_ok_of_inRange h1 h2 with ⟨pg, hidx, hdraw⟩
          rw [hdraw] at hb
          refine ⟨pg, hidx, ?_⟩
          have hops : ops = [drawTextOp a pg] := by
            have := hb
            simp at this
            exact this.symm
          rw [hsplit, hops]
          simp
        · rcases ih rout hrest hmem' with ⟨pg, hidx, hout⟩
          refine ⟨pg, hidx, ?_⟩
          rw [hsplit]
          exact List.mem_append_right _ hout
  have hsave : drawAll pages anns = Except.ok out := h
  rcases hmain anns out hsave ha with ⟨pg, hidx, hout⟩
  exact ⟨pg, hidx, hout, rfl, rfl, rfl, rfl, rfl, rfl⟩

/-- Witness for C1: the spec's end-to-end example — a 600×800 page and an
annotation `{page: 1, x: 120, y: 200, text: "John Doe"}` is drawn at
output coordinates `(120, 800 - 200 - 12) = (120, 588)`. -/
theorem export_draws_intrinsic_witness :
    ∃ pg, jsIndex [⟨600, 800⟩] ((1 : Int) - 1) = some pg ∧
      drawTextOp ⟨"a1", 1, 120, 200, "John Doe", none⟩ pg ∈
        [drawTextOp ⟨"a1", 1, 120, 200, "John Doe", none⟩ ⟨600, 800⟩] ∧
      ((drawTextOp ⟨"a1", 1, 120, 200, "John Doe", none⟩ pg).x,
        (drawTextOp ⟨"a1", 1, 120, 200, "John Doe", none⟩ pg).y) =
        toOutput (120, 200) pg.height ∧
      (drawTextOp ⟨"a1", 1, 120, 200, "John Doe", none⟩ pg).pageIndex =
        ((1 : Int) - 1).toNat ∧
      (drawTextOp ⟨"a1", 1, 120, 200, "John Doe", none⟩ pg).text = "John Doe" ∧
      (drawTextOp ⟨"a1", 1, 120, 200, "John Doe", none⟩ pg).size = 12 ∧
      (drawTextOp ⟨"a1", 1, 120, 200, "John Doe", none⟩ pg).font = "Courier" ∧
      (drawTextOp ⟨"a1", 1, 120, 200, "John Doe", none⟩ pg).color = (0, 0, 0) :=
  export_draws_intrinsic [⟨600, 800⟩] [⟨"a1", 1, 120, 200, "John Doe", none⟩]
    [drawTextOp ⟨"a1", 1, 120, 200, "John Doe", none⟩ ⟨600, 800⟩]
    (by norm_num [saveFilledPdf, drawAll, drawAnn, jsIndex])
    ⟨"a1", 1, 120, 200, "John Doe", none⟩ (by simp) (by decide) (by decide)

/- ---------------------------------------------------------------------
   C3 (corrected)
--------------------------------------------------------------------- -/

/-- Counterexample to claim C3 as stated: an annotation whose page (`0`)
lies outside `[1, pageCount]` is NOT silently skipped — the export as a
whole fails, because only `page > pages.length` is checked
(services/pdfService.ts line 40) and `pages[-1]` is `undefined`, so
`page.getSize()` throws. -/
theorem export_out_of_range_counterexample :
    saveFilledPdf (some [⟨600, 800⟩]) [⟨"z", 0, 10, 10, "t", none⟩] =
      Except.error "TypeError" := by
  norm_num [saveFilledPdf, drawAll, drawAnn, jsIndex]

/-- Claim C3 amended: only an annotation whose page EXCEEDS `pageCount`
is silently skipped (it contributes no draw operation and the export of
the remaining annotations proceeds unchanged); an annotation with
`page < 1` is not skipped — it makes the whole export throw.  (The store
is untouched either way: the exporter only reads the list.) -/
theorem export_skips_only_beyond_last_page (pages : List PageSize) (a : Ann)
    (rest : List Ann) :
    ((pages.length : Int) < a.page →
      saveFilledPdf (some pages) (a :: rest) = saveFilledPdf (some pages) rest)
    ∧ (a.page < 1 →
      saveFilledPdf (some pages) (a :: rest) = Except.error "TypeError") := by
  constructor
  · intro hgt
    have hskip : drawAnn pages a = Except.ok [] := by
      unfold drawAnn
      rw [if_pos hgt]
    show drawAll pages (a :: rest) = drawAll pages rest
    rw [show drawAll pages (a :: rest) =
        (match drawAnn pages a with
          | Except.error e => Except.error e
          | Except.ok ops =>
              match drawAll pages rest with
              | Except.error e => Except.error e
              | Except.ok more => Except.ok (ops ++ more)) from rfl, hskip]
    cases hr : drawAll pages rest <;> simp
  · intro hlt
    show drawAll pages (a :: rest) = Except.error "TypeError"
    unfold drawAll drawAnn
    rw [if_neg (by omega : ¬ ((pages.length : Int) < a.page))]
    have : jsIndex pages (a.page - 1) = none := by
      unfold jsIndex
      rw [if_pos (by omega : a.page - 1 < 0)]
    rw [this]

/-- Witness for C3 (amended): on a one-page document, an annotation with
page `5` is skipped without affecting the rest of the export, and an
annotation with page `-3` aborts the export. -/
theorem export_skips_only_beyond_last_page_witness :
    saveFilledPdf (some [⟨600, 800⟩]) [⟨"hi", 5, 1, 1, "t", none⟩] =
      saveFilledPdf (some [⟨600, 800⟩]) []
    ∧ saveFilledPdf (some [⟨600, 800⟩]) [⟨"lo", -3, 1, 1, "t", none⟩] =
      Except.error "TypeError" :=
  ⟨(export_skips_only_beyond_last_page [⟨600, 800⟩] ⟨"hi", 5, 1, 1, "t", none⟩ []).1
      (by decide),
   (export_skips_only_beyond_last_page [⟨600, 800⟩] ⟨"lo", -3, 1, 1, "t", none⟩ []).2
      (by decide)⟩

/- ---------------------------------------------------------------------
   C8
--------------------------------------------------------------------- -/

/-- Claim C8: if parsing the original bytes fails, `saveFilledPdf`
rejects with no output bytes; `handleDownload` catches the rejection, so
nothing is delivered to the host, and the App state — the annotation list
and the original buffer (`handleDownload` passes a copy) — is unchanged. -/
theorem export_parse_failure (parse : List Nat → Option (List PageSize))
    (st : AppState) (buf : List Nat)
    (h1 : st.fileBuf = some buf) (h2 : parse buf = none) :
    saveFilledPdf (parse buf) st.anns = Except.error "ParseError"
    ∧ handleDownload parse st = (st, none) := by
  constructor
  · rw [h2]
    rfl
  · unfold handleDownload
    rw [h1]
    show (match saveFilledPdf (parse buf) st.anns with
      | Except.error _ => (st, none)
      | Except.ok ops => (st, some ops)) = (st, none)
    rw [h2]
    rfl

/-- Witness for C8: a parser that rejects every buffer delivers nothing
and leaves the state (one stored annotation, the original buffer) alone. -/
theorem export_parse_failure_witness :
    saveFilledPdf ((fun _ => none) [7]) [⟨"a", 1, 0, 0, "x", none⟩] =
      Except.error "ParseError"
    ∧ handleDownload (fun _ => none) ⟨some [7], [⟨"a", 1, 0, 0, "x", none⟩]⟩ =
      (⟨some [7], [⟨"a", 1, 0, 0, "x", none⟩]⟩, none) :=
  export_parse_failure (fun _ => none) ⟨some [7], [⟨"a", 1, 0, 0, "x", none⟩]⟩
    [7] rfl rfl

/- ---------------------------------------------------------------------
   C4
--------------------------------------------------------------------- -/

/-- Claim C4: when a render at `s1` is superseded by a render at `s2`
before it completes — at whichever suspension point the cancellation
lands — there is exactly one visible completion and it is the `s2` one:
the final canvas sizing, bitmap, text layer and loading flag all reflect
`s2`, while the cancelled `s1` pass records no completion, installs no
text layer, and never clears the loading flag (every application of its
result sits behind an `isCancelled` check, and its render task's own
promise rejects with `RenderingCancelledException` once cancelled). -/
theorem render_cancel (s1 s2 : ℚ) (p : CancelPoint) (st : ViewState) :
    (superseded s1 s2 p st).completions = st.completions ++ [s2]
    ∧ (superseded s1 s2 p st).canvasScale = some s2
    ∧ (superseded s1 s2 p st).canvasContent = some s2
    ∧ (superseded s1 s2 p st).textLayerScale = some s2
    ∧ (superseded s1 s2 p st).loading = false
    ∧ (runRenderPass s1 (some p) st).completions = st.completions
    ∧ (runRenderPass s1 (some p) st).textLayerScale = st.textLayerScale
    ∧ (runRenderPass s1 (some p) st).loading = true := by
  cases p <;> simp [superseded, runRenderPass]

/- ---------------------------------------------------------------------
   C5 (corrected)
--------------------------------------------------------------------- -/

/-- Counterexample to claim C5 as stated: for the item with transform
`[2, 0, 0, 1, 5, 9]` at scale 1 the span is assigned font size
`sqrt(0² + 1²) = 1` (the code uses `tx[2], tx[3]`, src/App.tsx line 523),
whereas `scale * sqrt(a² + b²)` over the FIRST two entries would be
`sqrt(2² + 0²) = 2`.  `ratSqrt` computes both square roots exactly, as
`Math.sqrt` would. -/
theorem textlayer_fontsize_counterexample :
    (buildTextLayer ratSqrt 1 none [⟨"hi", 2, 0, 0, 1, 5, 9⟩]).map
        SpanStyle.fontSize = [1]
    ∧ claimedFontSizePx ratSqrt 1 ⟨"hi", 2, 0, 0, 1, 5, 9⟩ = 2
    ∧ (1 : ℚ) ≠ 2 := by
  refine ⟨?_, ?_, by norm_num⟩
  · norm_num [buildTextLayer, mkSpan, List.filterMap_cons, List.filterMap_nil,
      show jsTrim "hi" = "hi" from rfl, show ("hi" = "") = False from by decide,
      ratSqrt, show isqrt 1 = 1 from by decide]
  · norm_num [claimedFontSizePx, ratSqrt,
      show isqrt (Int.toNat 4) = 2 from by decide, show isqrt 1 = 1 from by decide]

/-- Claim C5 amended: every span placed in the text layer comes from an
item with non-empty trimmed text and is assigned font size
`scale * sqrt(c² + d²)` where `c, d` are the THIRD and FOURTH entries
(`tx[2], tx[3]`, the second column of the 2×2 linear transform), not the
first two. -/
theorem textlayer_fontsize (sqrtFn : ℚ → ℚ) (scale : ℚ)
    (vt : Option (ℚ × ℚ × ℚ × ℚ × ℚ × ℚ)) (items : List TextItem) :
    ∀ sp ∈ buildTextLayer sqrtFn scale vt items, ∃ it ∈ items,
      jsTrim it.str ≠ "" ∧ sp.content = it.str ∧
      sp.fontSize = sqrtFn (it.t2 * it.t2 + it.t3 * it.t3) * scale := by
  intro sp hsp
  rcases List.mem_filterMap.mp hsp with ⟨it, hit, hmk⟩
  by_cases htrim : jsTrim it.str = ""
  · rw [if_pos htrim] at hmk
    exact absurd hmk (by simp)
  · rw [if_neg htrim] at hmk
    have hs : mkSpan sqrtFn scale vt it = sp := Option.some.inj hmk
    exact ⟨it, hit, htrim, by rw [← hs]; rfl, by rw [← hs]; rfl⟩

/-- Witness for C5 (amended): the single span built for the item with
transform `[2, 0, 0, 1, 5, 9]` at scale 1. -/
theorem textlayer_fontsize_witness :
    ∃ it ∈ [(⟨"hi", 2, 0, 0, 1, 5, 9⟩ : TextItem)],
      jsTrim it.str ≠ "" ∧
      (mkSpan ratSqrt 1 none ⟨"hi", 2, 0, 0, 1, 5, 9⟩).content = it.str ∧
      (mkSpan ratSqrt 1 none ⟨"hi", 2, 0, 0, 1, 5, 9⟩).fontSize =
        ratSqrt (it.t2 * it.t2 + it.t3 * it.t3) * 1 :=
  textlayer_fontsize ratSqrt 1 none [⟨"hi", 2, 0, 0, 1, 5, 9⟩]
    (mkSpan ratSqrt 1 none ⟨"hi", 2, 0, 0, 1, 5, 9⟩)
    (by simp [buildTextLayer, List.filterMap_cons,
      show jsTrim "hi" = "hi" from rfl, show ("hi" = "") = False from by decide])

/- ---------------------------------------------------------------------
   C7
--------------------------------------------------------------------- -/

/-- Claim C7: a double interaction at screen point
`P = (clientX - rectLeft, clientY - rectTop)` on page `N` is ignored
(store unchanged) when the target sits in an existing annotation's input
or its delete button, or when the active selection has non-empty trimmed
text; otherwise it appends exactly one record
`{id: freshId, page: N, x: P.x / scale, y: P.y / scale, text: ""}`
(`(x, y) = toIntrinsic P scale`). -/
theorem gesture_creates_one (freshId : String) (pageNumber : Int) (scale : ℚ)
    (e : ClickEvent) (anns : List Ann) :
    ((e.targetInInput = true ∨ e.targetInButton = true ∨
        jsTrim e.selectionText ≠ "") →
      handlePageDoubleClick freshId pageNumber scale e anns = anns)
    ∧ (e.hasWrapper = true → e.targetInInput = false → e.targetInButton = false →
      jsTrim e.selectionText = "" →
      handlePageDoubleClick freshId pageNumber scale e anns =
        anns ++ [{ id := freshId, page := pageNumber
                 , x := (toIntrinsic (e.clientX - e.rectLeft,
                          e.clientY - e.rectTop) scale).1
                 , y := (toIntrinsic (e.clientX - e.rectLeft,
                          e.clientY - e.rectTop) scale).2
                 , text := "", width := none }]) := by
  constructor
  · intro h
    rcases h with h | h | h
    · simp [handlePageDoubleClick, h]
    · simp [handlePageDoubleClick, h]
    · have hlen : 0 < (jsTrim e.selectionText).length :=
        Nat.pos_of_ne_zero (fun hz => h (string_len_zero hz))
      simp [handlePageDoubleClick, hlen]
  · intro hw hin hbtn htrim
    have hlen : ¬ (0 < (jsTrim e.selectionText).length) := by
      rw [htrim]
      simp
    simp [handlePageDoubleClick, hw, hin, hbtn, hlen, handleAddAnn, toIntrinsic]

/-- Witness for C7: a double click at screen `(120, 200)` with scale 1,
no blocking target and an empty selection appends exactly the one new
record; with the target inside an input it is ignored. -/
theorem gesture_creates_one_witness :
    (handlePageDoubleClick "f1" 1 1 ⟨true, false, false, "", 120, 200, 0, 0⟩ [] =
      [] ++ [{ id := "f1", page := 1
             , x := (toIntrinsic ((120 : ℚ) - 0, (200 : ℚ) - 0) 1).1
             , y := (toIntrinsic ((120 : ℚ) - 0, (200 : ℚ) - 0) 1).2
             , text := "", width := none }])
    ∧ (handlePageDoubleClick "f1" 1 1 ⟨true, true, false, "", 120, 200, 0, 0⟩
        [] = []) :=
  ⟨(gesture_creates_one "f1" 1 1 ⟨true, false, false, "", 120, 200, 0, 0⟩ []).2
      rfl rfl rfl rfl,
   (gesture_creates_one "f1" 1 1 ⟨true, true, false, "", 120, 200, 0, 0⟩ []).1
      (Or.inl rfl)⟩
